import Mathlib

/-!
Verification of the power-menu utility (`power.py`): a shallow embedding of
its color-cache loader, theme renderer, action handlers and hex-color
conversion, with theorems settling the specification claims.
-/

namespace PowerMenu

/-! ## JSON values

A minimal model of the JSON values the script manipulates: the pywal color
cache is a nesting of objects whose leaves are strings.  Indexing an object
with a missing key raises `KeyError` in Python; indexing a string raises
`TypeError`.  Exceptions are modelled with `Except`. -/

inductive Json where
  | str : String → Json
  | obj : List (String × Json) → Json

/-- Python dictionary indexing `j[k]`: `KeyError` on a missing key,
`TypeError` when the value is not a dictionary. -/
def Json.lookup : Json → String → Except String Json
  | Json.str _, _ => Except.error "TypeError"
  | Json.obj fs, k =>
    match fs.find? (fun p => p.1 == k) with
    | some p => Except.ok p.2
    | none => Except.error ("KeyError: " ++ k)

/-! ## ColorSource: `load_wal_colors` (power.py lines 29-53) -/

/-- The hardcoded default palette returned when the cache file is absent
(power.py lines 35-50). -/
def default_palette : Json :=
  Json.obj [
    ("special", Json.obj [
      ("background", Json.str "#282a36"),
      ("foreground", Json.str "#f8f8f2")]),
    ("colors", Json.obj [
      ("color0", Json.str "#21222c"),
      ("color1", Json.str "#ff5555"),
      ("color2", Json.str "#50fa7b"),
      ("color3", Json.str "#f1fa8c"),
      ("color4", Json.str "#bd93f9"),
      ("color5", Json.str "#ff79c6"),
      ("color6", Json.str "#8be9fd"),
      ("color7", Json.str "#f8f8f2")])]

/-- The state of the cache file `~/.cache/wal/colors.json`: absent, present
but not valid JSON, or present and parsing to a JSON value `j`. -/
inductive FileState where
  | absent : FileState
  | invalid : FileState
  | valid : Json → FileState

/-- `load_wal_colors` (power.py lines 29-53): if the file does not exist,
return the default palette; otherwise `json.load` the file, which raises a
`JSONDecodeError` on invalid JSON and otherwise returns the parsed value
as-is (no key validation). -/
def load_wal_colors : FileState → Except String Json
  | FileState.absent => Except.ok default_palette
  | FileState.invalid => Except.error "JSONDecodeError"
  | FileState.valid j => Except.ok j

/-! ## ThemeRenderer: `apply_theme` (power.py lines 102-151)

The CSS template built by `apply_theme` is embedded structurally: one field
per CSS property, in the order of the source template.  Interpolated colors
keep their JSON value; the two `shade(color, factor)` expressions are kept
symbolic with their rational factor. -/

/-- A CSS color expression: either a palette color inserted verbatim, or a
GTK `shade(color, factor)` expression. -/
inductive CssColor where
  | plain : Json → CssColor
  | shade : Json → ℚ → CssColor

/-- The style sheet produced by the CSS template in `apply_theme`
(power.py lines 108-142), field for field in source order. -/
structure StyleSheet where
  font_family : String
  font_size : String
  window_background : Json
  window_border_radius : String
  window_border : String
  window_border_color : Json
  label_color : Json
  button_background : CssColor
  button_color : Json
  button_border_radius : String
  button_padding : String
  button_margin : String
  button_border : String
  button_transition : String
  hover_background : Json
  hover_color : Json
  active_background : CssColor

/-- `apply_theme` (power.py lines 102-151): look up
`special.background`, `special.foreground` and `colors.color4` in the
loaded palette (a `KeyError` propagates) and build the style sheet. -/
def apply_theme (wal : Json) : Except String StyleSheet :=
  match (Json.lookup wal "special").bind (fun s => Json.lookup s "background") with
  | Except.error e => Except.error e
  | Except.ok bg_color =>
  match (Json.lookup wal "special").bind (fun s => Json.lookup s "foreground") with
  | Except.error e => Except.error e
  | Except.ok fg_color =>
  match (Json.lookup wal "colors").bind (fun c => Json.lookup c "color4") with
  | Except.error e => Except.error e
  | Except.ok accent_color =>
  Except.ok {
    font_family := "Sans"
    font_size := "14px"
    window_background := bg_color
    window_border_radius := "0px"
    window_border := "2px solid"
    window_border_color := accent_color
    label_color := fg_color
    button_background := CssColor.shade bg_color (11/10)
    button_color := fg_color
    button_border_radius := "0px"
    button_padding := "12px 24px"
    button_margin := "0"
    button_border := "none"
    button_transition := "all 0.2s ease"
    hover_background := accent_color
    hover_color := bg_color
    active_background := CssColor.shade accent_color (9/10) }

/-! ## ActionDispatcher: the button handlers (power.py lines 153-217)

Each handler is embedded as a function from its environment (which external
commands succeed, what `os.system` returns, the dialog response) to the
observable effects: the `subprocess.run` argument vectors invoked in order,
the `os.system` calls with their (ignored) exit statuses, and whether the
window and the confirmation dialog were destroyed. -/

/-- The observable effects of one handler invocation. -/
structure Effects where
  sub_run : List (List String)
  os_system : List (String × Int)
  window_destroyed : Bool
  dialog_destroyed : Bool

/-- The fallback lock command list (power.py lines 166-171). -/
def lock_commands : List String :=
  ["loginctl lock-session", "dm-tool lock", "i3lock", "swaylock"]

/-- Split a character list on spaces, dropping empty fields, as Python
`str.split()` does on these command strings. -/
def wordsAux : List Char → List Char → List (List Char)
  | [], acc => if acc.isEmpty then [] else [acc.reverse]
  | c :: cs, acc =>
    if c = ' ' then
      if acc.isEmpty then wordsAux cs [] else acc.reverse :: wordsAux cs []
    else wordsAux cs (c :: acc)

/-- `cmd.split()` (power.py line 174): the argument vector of a command. -/
def argvOf (cmd : String) : List String :=
  (wordsAux cmd.data []).map String.mk

/-- The loop body of `fallback_lock` (power.py lines 172-177): run each
command in order; `check=True` failure (non-zero exit) and
`FileNotFoundError` are both caught and advance to the next command; a
success breaks out of the loop.  `run argv = true` models a successful
invocation.  Returns the argument vectors invoked, in order. -/
def loopChain (run : List String → Bool) : List String → List (List String)
  | [] => []
  | cmd :: rest =>
    if run (argvOf cmd) then [argvOf cmd]
    else argvOf cmd :: loopChain run rest

/-- `fallback_lock` (power.py lines 164-177). -/
def fallback_lock (run : List String → Bool) : List (List String) :=
  loopChain run lock_commands

/-- `on_lock` (power.py lines 153-162): under Hyprland, try `hyprlock`
first and fall back on `CalledProcessError` or `FileNotFoundError`;
otherwise go straight to the fallback chain.  `self.destroy()` runs
unconditionally afterwards. -/
def on_lock (is_hyprland : Bool) (run : List String → Bool) : Effects :=
  let sub :=
    if is_hyprland then
      if run ["hyprlock"] then [["hyprlock"]]
      else ["hyprlock"] :: fallback_lock run
    else fallback_lock run
  { sub_run := sub
    os_system := []
    window_destroyed := true
    dialog_destroyed := false }

/-- The full ordered Lock chain: the compositor-native locker when the
Hyprland signature is present, then the four fallback commands. -/
def full_chain (is_hyprland : Bool) : List (List String) :=
  (if is_hyprland then [["hyprlock"]] else []) ++ lock_commands.map argvOf

/-- The response of the yes/no confirmation dialog: `Gtk.ResponseType.YES`,
`Gtk.ResponseType.NO`, or a dismissal (e.g. `DELETE_EVENT`). -/
inductive Response where
  | yes : Response
  | no : Response
  | dismissed : Response

/-- `confirm_action` (power.py lines 188-217): show the dialog; on a `YES`
response run `os.system(command)` (return value discarded) and destroy the
window; in every case destroy the dialog.  `system` gives each command its
exit status. -/
def confirm_action (system : String → Int) (command : String)
    (resp : Response) : Effects :=
  match resp with
  | Response.yes =>
    { sub_run := []
      os_system := [(command, system command)]
      window_destroyed := true
      dialog_destroyed := true }
  | _ =>
    { sub_run := []
      os_system := []
      window_destroyed := false
      dialog_destroyed := true }

/-- `on_shutdown` (power.py lines 179-180). -/
def on_shutdown (system : String → Int) (resp : Response) : Effects :=
  confirm_action system "systemctl poweroff" resp

/-- `on_reboot` (power.py lines 182-183). -/
def on_reboot (system : String → Int) (resp : Response) : Effects :=
  confirm_action system "systemctl reboot" resp

/-- The per-window state set up by `__init__` (power.py lines 12-27). -/
structure MenuState where
  is_hyprland : Bool
  wal_colors : Json

/-- `self.is_hyprland = "HYPRLAND_INSTANCE_SIGNATURE" in os.environ`
(power.py line 20); the environment is the list of defined variable
names. -/
def mk_is_hyprland (env : List String) : Bool :=
  decide ("HYPRLAND_INSTANCE_SIGNATURE" ∈ env)

/-- `on_cancel` (power.py lines 185-186): `self.destroy()` and nothing
else, whatever the menu state. -/
def on_cancel (_m : MenuState) : Effects :=
  { sub_run := []
    os_system := []
    window_destroyed := true
    dialog_destroyed := false }

/-! ## `hex_to_rgba` (power.py lines 219-225) -/

/-- The value of one hexadecimal digit as accepted by Python
`int(s, 16)`: `0`-`9`, `a`-`f`, `A`-`F`. -/
def hexDigitVal (c : Char) : Option Nat :=
  if 48 ≤ c.toNat ∧ c.toNat ≤ 57 then some (c.toNat - 48)
  else if 97 ≤ c.toNat ∧ c.toNat ≤ 102 then some (c.toNat - 87)
  else if 65 ≤ c.toNat ∧ c.toNat ≤ 70 then some (c.toNat - 55)
  else none

/-- Accumulator loop for `int(s, 16)`. -/
def pyIntHexAux : List Char → Nat → Option Nat
  | [], acc => some acc
  | c :: cs, acc =>
    match hexDigitVal c with
    | some d => pyIntHexAux cs (16 * acc + d)
    | none => none

/-- `int(s, 16)` on a digit sequence: `ValueError` (modelled as `none`) on
an empty string or a non-hex character. -/
def pyIntHex : List Char → Option Nat
  | [] => none
  | cs => pyIntHexAux cs 0

/-- A `Gdk.RGBA` value; the float components are modelled exactly over
ℚ. -/
structure RGBA where
  r : ℚ
  g : ℚ
  b : ℚ
  a : ℚ

/-- `hex_to_rgba` (power.py lines 219-225): strip leading `#` characters,
parse the slices `[0:2]`, `[2:4]`, `[4:6]` as hex bytes, divide by 255 and
return alpha 1.0.  A `ValueError` from `int` is modelled as `none`. -/
def hex_to_rgba (s : String) : Option RGBA :=
  let h := s.data.dropWhile (fun c => c == '#')
  match pyIntHex (h.take 2), pyIntHex ((h.drop 2).take 2),
        pyIntHex ((h.drop 4).take 2) with
  | some r, some g, some b =>
    some { r := (r : ℚ) / 255, g := (g : ℚ) / 255, b := (b : ℚ) / 255, a := 1 }
  | _, _, _ => none

/-- Generic form of the first-success loop: try the argument vectors of
`l` in order, stopping at the first success.  `loopChain` is this function
composed with `argvOf`, and `on_lock` runs it on `full_chain`. -/
def chainRun (run : List String → Bool) : List (List String) → List (List String)
  | [] => []
  | c :: cs => if run c then [c] else c :: chainRun run cs

/-- The cache-file content of the scenario in the specification:
`special.background = #000000`, `special.foreground = #ffffff`,
`colors.color4 = #ff00ff`. -/
def scenario_wal : Json :=
  Json.obj [
    ("special", Json.obj [
      ("background", Json.str "#000000"),
      ("foreground", Json.str "#ffffff")]),
    ("colors", Json.obj [("color4", Json.str "#ff00ff")])]

/-- A second concrete palette, used to instantiate the renderer-structure
theorem. -/
def witness_wal : Json :=
  Json.obj [
    ("special", Json.obj [
      ("background", Json.str "#112233"),
      ("foreground", Json.str "#eeeeee")]),
    ("colors", Json.obj [("color4", Json.str "#aabbcc")])]

/-! ## Helper lemmas -/

theorem loopChain_eq_chainRun (run : List String → Bool) (l : List String) :
    loopChain run l = chainRun run (l.map argvOf) := by
  induction l with
  | nil => rfl
  | cons c cs ih => by_cases h : run (argvOf c) <;> simp [loopChain, chainRun, h, ih]

theorem on_lock_sub_run (b : Bool) (run : List String → Bool) :
    (on_lock b run).sub_run = chainRun run (full_chain b) := by
  cases b with
  | false => simp [on_lock, fallback_lock, full_chain, loopChain_eq_chainRun]
  | true =>
    by_cases h : run ["hyprlock"] <;>
      simp [on_lock, fallback_lock, full_chain, loopChain_eq_chainRun, chainRun, h]

theorem chainRun_take (run : List String → Bool) :
    ∀ (l : List (List String)) (n : Nat), n < l.length →
      (∀ c ∈ l.take n, run c = false) → run (l.getD n []) = true →
      chainRun run l = l.take (n + 1) := by
  intro l
  induction l with
  | nil => intro n hn _ _; simp at hn
  | cons c cs ih =>
    intro n hn hfail hsucc
    cases n with
    | zero =>
      simp only [List.getD_cons_zero] at hsucc
      simp [chainRun, hsucc]
    | succ m =>
      have hc : run c = false := hfail c (by simp)
      have hrest := ih m (by simpa using hn)
        (fun x hx => hfail x (List.mem_cons_of_mem _ hx))
        (by simpa using hsucc)
      simp [chainRun, hc, hrest]

theorem chainRun_all_fail (run : List String → Bool) :
    ∀ l : List (List String), (∀ c ∈ l, run c = false) → chainRun run l = l := by
  intro l
  induction l with
  | nil => intro _; rfl
  | cons c cs ih =>
    intro h
    have hc : run c = false := h c (by simp)
    simp [chainRun, hc, ih (fun x hx => h x (List.mem_cons_of_mem _ hx))]

theorem chainRun_mem (run : List String → Bool) :
    ∀ (l : List (List String)) (x : List String), x ∈ chainRun run l → x ∈ l := by
  intro l
  induction l with
  | nil => intro x hx; simp [chainRun] at hx
  | cons c cs ih =>
    intro x hx
    by_cases h : run c
    · simp [chainRun, h] at hx
      simp [hx]
    · simp only [chainRun, h, Bool.false_eq_true, if_false, List.mem_cons] at hx
      rcases hx with hx | hx
      · simp [hx]
      · exact List.mem_cons_of_mem _ (ih x hx)

/-! ## Claim theorems -/

/-- Claim C1: for the Lock action the dispatcher tries the fixed chain
(compositor-native locker first when under the compositor signature, then
session-manager lock, display-manager lock and the two alternate lockers)
in order and stops at the first success: if the first `n` commands fail and
command `n+1` succeeds, exactly the first `n+1` commands are invoked, in
order, no later command runs, and the window is closed. -/
theorem lock_chain_stops_at_first_success (b : Bool) (run : List String → Bool)
    (n : Nat) (hn : n < (full_chain b).length)
    (hfail : ∀ c ∈ (full_chain b).take n, run c = false)
    (hsucc : run ((full_chain b).getD n []) = true) :
    full_chain true = [["hyprlock"], ["loginctl", "lock-session"],
      ["dm-tool", "lock"], ["i3lock"], ["swaylock"]] ∧
    (on_lock b run).sub_run = (full_chain b).take (n + 1) ∧
    (on_lock b run).sub_run.length = n + 1 ∧
    (on_lock b run).window_destroyed = true := by
  have hrun : (on_lock b run).sub_run = (full_chain b).take (n + 1) :=
    (on_lock_sub_run b run).trans (chainRun_take run (full_chain b) n hn hfail hsucc)
  refine ⟨by decide, hrun, ?_, rfl⟩
  rw [hrun, List.length_take]
  omega

/-- Witness for C1: under Hyprland, with only `dm-tool lock` succeeding,
`hyprlock` and `loginctl lock-session` fail first, so exactly the first
three commands of the chain run. -/
theorem lock_chain_stops_at_first_success_witness :
    (2 < (full_chain true).length ∧
     (∀ c ∈ (full_chain true).take 2,
        (fun a => a == ["dm-tool", "lock"]) c = false) ∧
     (fun a => a == ["dm-tool", "lock"]) ((full_chain true).getD 2 []) = true) ∧
    (full_chain true = [["hyprlock"], ["loginctl", "lock-session"],
       ["dm-tool", "lock"], ["i3lock"], ["swaylock"]] ∧
     (on_lock true (fun a => a == ["dm-tool", "lock"])).sub_run =
       (full_chain true).take 3 ∧
     (on_lock true (fun a => a == ["dm-tool", "lock"])).sub_run.length = 3 ∧
     (on_lock true (fun a => a == ["dm-tool", "lock"])).window_destroyed = true) :=
  ⟨⟨by decide, by decide, by decide⟩,
   lock_chain_stops_at_first_success true (fun a => a == ["dm-tool", "lock"]) 2
     (by decide) (by decide) (by decide)⟩

/-- Claim C3: when every command of the full Lock chain fails, all of them
are attempted and the window still closes; the handler is total (no
exception reaches the UI layer). -/
theorem lock_all_fail_still_closes (b : Bool) (run : List String → Bool)
    (hfail : ∀ c ∈ full_chain b, run c = false) :
    (on_lock b run).sub_run = full_chain b ∧
    (on_lock b run).window_destroyed = true :=
  ⟨(on_lock_sub_run b run).trans (chainRun_all_fail run (full_chain b) hfail), rfl⟩

/-- Witness for C3: with an executor on which every command fails, the
whole Hyprland chain is attempted and the window still closes. -/
theorem lock_all_fail_still_closes_witness :
    (∀ c ∈ full_chain true, (fun _ => false : List String → Bool) c = false) ∧
    ((on_lock true (fun _ => false)).sub_run = full_chain true ∧
     (on_lock true (fun _ => false)).window_destroyed = true) :=
  ⟨by decide, lock_all_fail_still_closes true (fun _ => false) (by decide)⟩

/-- Claim C8: the compositor-signature environment variable fully selects
the Lock path.  When `HYPRLAND_INSTANCE_SIGNATURE` is in the environment
the compositor-native locker is the first command attempted; when it is
absent, only the generic fallback chain runs and `hyprlock` is never
invoked. -/
theorem hyprland_signature_selects_lock_path (run : List String → Bool)
    (env1 env2 : List String)
    (h1 : "HYPRLAND_INSTANCE_SIGNATURE" ∈ env1)
    (h2 : "HYPRLAND_INSTANCE_SIGNATURE" ∉ env2) :
    (on_lock (mk_is_hyprland env1) run).sub_run.head? = some ["hyprlock"] ∧
    (on_lock (mk_is_hyprland env2) run).sub_run = fallback_lock run ∧
    ["hyprlock"] ∉ (on_lock (mk_is_hyprland env2) run).sub_run := by
  have e1 : mk_is_hyprland env1 = true := by simp [mk_is_hyprland, h1]
  have e2 : mk_is_hyprland env2 = false := by simp [mk_is_hyprland, h2]
  rw [e1, e2]
  refine ⟨?_, ?_, ?_⟩
  · by_cases h : run ["hyprlock"] <;> simp [on_lock, h]
  · simp [on_lock]
  · intro hmem
    simp only [on_lock, Bool.false_eq_true, if_false] at hmem
    have hin : ["hyprlock"] ∈ lock_commands.map argvOf := by
      rw [fallback_lock, loopChain_eq_chainRun] at hmem
      exact chainRun_mem run _ _ hmem
    revert hin
    decide

/-- Witness for C8: with the signature present (`env1`) the chain starts
with `hyprlock`; with it absent (`env2 = []`) only the fallback chain
runs. -/
theorem hyprland_signature_selects_lock_path_witness :
    ("HYPRLAND_INSTANCE_SIGNATURE" ∈ ["HYPRLAND_INSTANCE_SIGNATURE"] ∧
     "HYPRLAND_INSTANCE_SIGNATURE" ∉ ([] : List String)) ∧
    ((on_lock (mk_is_hyprland ["HYPRLAND_INSTANCE_SIGNATURE"])
        (fun _ => false)).sub_run.head? = some ["hyprlock"] ∧
     (on_lock (mk_is_hyprland []) (fun _ => false)).sub_run =
       fallback_lock (fun _ => false) ∧
     ["hyprlock"] ∉ (on_lock (mk_is_hyprland []) (fun _ => false)).sub_run) :=
  ⟨⟨by decide, by decide⟩,
   hyprland_signature_selects_lock_path (fun _ => false)
     ["HYPRLAND_INSTANCE_SIGNATURE"] [] (by decide) (by decide)⟩

/-- Claim C4: confirming Reboot runs the reboot command exactly once,
never the shutdown command, and closes the window; a negative or dismissed
response runs nothing and leaves the main window open with the dialog
closed.  Symmetrically for Shutdown. -/
theorem reboot_shutdown_confirmation (system : String → Int) :
    ((on_reboot system Response.yes).os_system.map Prod.fst =
       ["systemctl reboot"] ∧
     "systemctl poweroff" ∉
       (on_reboot system Response.yes).os_system.map Prod.fst ∧
     (on_reboot system Response.yes).window_destroyed = true ∧
     (on_reboot system Response.yes).dialog_destroyed = true) ∧
    ((on_reboot system Response.no).os_system = [] ∧
     (on_reboot system Response.no).sub_run = [] ∧
     (on_reboot system Response.no).window_destroyed = false ∧
     (on_reboot system Response.no).dialog_destroyed = true) ∧
    ((on_reboot system Response.dismissed).os_system = [] ∧
     (on_reboot system Response.dismissed).window_destroyed = false ∧
     (on_reboot system Response.dismissed).dialog_destroyed = true) ∧
    ((on_shutdown system Response.yes).os_system.map Prod.fst =
       ["systemctl poweroff"] ∧
     "systemctl reboot" ∉
       (on_shutdown system Response.yes).os_system.map Prod.fst ∧
     (on_shutdown system Response.yes).window_destroyed = true) ∧
    ((on_shutdown system Response.no).os_system = [] ∧
     (on_shutdown system Response.no).window_destroyed = false ∧
     (on_shutdown system Response.no).dialog_destroyed = true) := by
  refine ⟨⟨rfl, ?_, rfl, rfl⟩, ⟨rfl, rfl, rfl, rfl⟩, ⟨rfl, rfl, rfl⟩,
    ⟨rfl, ?_, rfl⟩, ⟨rfl, rfl, rfl⟩⟩
  · simp [on_reboot, confirm_action]
  · simp [on_shutdown, confirm_action]

/-- Claim C5: the Cancel handler closes the window and invokes no external
command, whatever the menu state. -/
theorem cancel_closes_window_no_commands (m : MenuState) :
    (on_cancel m).sub_run = [] ∧ (on_cancel m).os_system = [] ∧
    (on_cancel m).window_destroyed = true ∧
    (on_cancel m).dialog_destroyed = false :=
  ⟨rfl, rfl, rfl, rfl⟩

/-- Claim C7: after an affirmative confirmation the privileged command is
run exactly once, fire and forget: the window and the dialog close whatever
exit status `os.system` reports, and every observable apart from the
recorded status is independent of the status function. -/
theorem confirmed_command_fire_and_forget (sys1 sys2 : String → Int)
    (cmd : String) :
    (confirm_action sys1 cmd Response.yes).os_system = [(cmd, sys1 cmd)] ∧
    (confirm_action sys1 cmd Response.yes).window_destroyed = true ∧
    (confirm_action sys1 cmd Response.yes).dialog_destroyed = true ∧
    (confirm_action sys1 cmd Response.yes).window_destroyed =
      (confirm_action sys2 cmd Response.yes).window_destroyed ∧
    (confirm_action sys1 cmd Response.yes).dialog_destroyed =
      (confirm_action sys2 cmd Response.yes).dialog_destroyed ∧
    (confirm_action sys1 cmd Response.yes).sub_run =
      (confirm_action sys2 cmd Response.yes).sub_run ∧
    (confirm_action sys1 cmd Response.yes).os_system.map Prod.fst =
      (confirm_action sys2 cmd Response.yes).os_system.map Prod.fst :=
  ⟨rfl, rfl, rfl, rfl, rfl, rfl, rfl⟩

/-- Counterexample to claim C2: a cache file that parses but is missing
every palette key.  `load_wal_colors` hands the parsed (empty) object to
the caller as-is, which is not the built-in default palette; and on invalid
JSON the parse error propagates instead of the default palette being
returned. -/
theorem load_wal_colors_missing_keys_counterexample :
    load_wal_colors (FileState.valid (Json.obj [])) =
      Except.ok (Json.obj []) ∧
    Json.obj [] ≠ default_palette ∧
    load_wal_colors FileState.invalid = Except.error "JSONDecodeError" := by
  refine ⟨rfl, ?_, rfl⟩
  intro h
  simp [default_palette] at h

/-- Claim C2 as amended: only when the cache file is absent does `load`
return the built-in default palette; a file that parses is returned
exactly as parsed (even with keys missing, so the caller can receive a
partial palette), and invalid JSON raises a parse error to the caller. -/
theorem load_wal_colors_default_only_when_absent :
    load_wal_colors FileState.absent = Except.ok default_palette ∧
    (∀ j : Json, load_wal_colors (FileState.valid j) = Except.ok j) ∧
    load_wal_colors FileState.invalid = Except.error "JSONDecodeError" :=
  ⟨rfl, fun _ => rfl, rfl⟩

/-- Claim C6: for every palette whose three color lookups succeed, the
rendered style sheet has window-border color equal to the accent color
(`colors.color4`) and label color equal to the foreground color. -/
theorem theme_border_accent_label_foreground (wal b f a : Json)
    (hb : (Json.lookup wal "special").bind
        (fun s => Json.lookup s "background") = Except.ok b)
    (hf : (Json.lookup wal "special").bind
        (fun s => Json.lookup s "foreground") = Except.ok f)
    (ha : (Json.lookup wal "colors").bind
        (fun c => Json.lookup c "color4") = Except.ok a) :
    ∃ sheet, apply_theme wal = Except.ok sheet ∧
      sheet.window_border_color = a ∧ sheet.label_color = f := by
  unfold apply_theme
  rw [hb, hf, ha]
  exact ⟨_, rfl, rfl, rfl⟩

/-- Witness for C6, the scenario of the specification: with background
`#000000`, foreground `#ffffff` and `color4 = #ff00ff`, the rendered
border color is `#ff00ff` and the label color is `#ffffff`. -/
theorem theme_border_accent_label_foreground_witness :
    ((Json.lookup scenario_wal "special").bind
        (fun s => Json.lookup s "background") =
      Except.ok (Json.str "#000000") ∧
     (Json.lookup scenario_wal "special").bind
        (fun s => Json.lookup s "foreground") =
      Except.ok (Json.str "#ffffff") ∧
     (Json.lookup scenario_wal "colors").bind
        (fun c => Json.lookup c "color4") =
      Except.ok (Json.str "#ff00ff")) ∧
    (∃ sheet, apply_theme scenario_wal = Except.ok sheet ∧
      sheet.window_border_color = Json.str "#ff00ff" ∧
      sheet.label_color = Json.str "#ffffff") :=
  ⟨⟨rfl, rfl, rfl⟩,
   theme_border_accent_label_foreground scenario_wal
     (Json.str "#000000") (Json.str "#ffffff") (Json.str "#ff00ff")
     rfl rfl rfl⟩

/-- Claim C9: the theme renderer is a function of the palette alone, and
its style sheet sets the window border to the accent color, the button
background to the background color shaded by the fixed factor 11/10 (a
lightening, the factor exceeds 1), the hover state to the accent color as
background with background-colored (inverted) text, and the active state
to the accent color shaded by the fixed factor 9/10 (a darkening, the
factor is below 1). -/
theorem theme_renderer_structure (wal b f a : Json)
    (hb : (Json.lookup wal "special").bind
        (fun s => Json.lookup s "background") = Except.ok b)
    (hf : (Json.lookup wal "special").bind
        (fun s => Json.lookup s "foreground") = Except.ok f)
    (ha : (Json.lookup wal "colors").bind
        (fun c => Json.lookup c "color4") = Except.ok a) :
    ∃ sheet, apply_theme wal = Except.ok sheet ∧
      sheet.window_border_color = a ∧
      sheet.button_background = CssColor.shade b (11 / 10) ∧
      (1 : ℚ) < 11 / 10 ∧
      sheet.hover_background = a ∧
      sheet.hover_color = b ∧
      sheet.active_background = CssColor.shade a (9 / 10) ∧
      (9 / 10 : ℚ) < 1 := by
  unfold apply_theme
  rw [hb, hf, ha]
  exact ⟨_, rfl, rfl, rfl, by norm_num, rfl, rfl, rfl, by norm_num⟩

/-- Witness for C9 at a concrete palette. -/
theorem theme_renderer_structure_witness :
    ((Json.lookup witness_wal "special").bind
        (fun s => Json.lookup s "background") =
      Except.ok (Json.str "#112233") ∧
     (Json.lookup witness_wal "special").bind
        (fun s => Json.lookup s "foreground") =
      Except.ok (Json.str "#eeeeee") ∧
     (Json.lookup witness_wal "colors").bind
        (fun c => Json.lookup c "color4") =
      Except.ok (Json.str "#aabbcc")) ∧
    (∃ sheet, apply_theme witness_wal = Except.ok sheet ∧
      sheet.window_border_color = Json.str "#aabbcc" ∧
      sheet.button_background = CssColor.shade (Json.str "#112233") (11 / 10) ∧
      (1 : ℚ) < 11 / 10 ∧
      sheet.hover_background = Json.str "#aabbcc" ∧
      sheet.hover_color = Json.str "#112233" ∧
      sheet.active_background = CssColor.shade (Json.str "#aabbcc") (9 / 10) ∧
      (9 / 10 : ℚ) < 1) :=
  ⟨⟨rfl, rfl, rfl⟩,
   theme_renderer_structure witness_wal
     (Json.str "#112233") (Json.str "#eeeeee") (Json.str "#aabbcc")
     rfl rfl rfl⟩

theorem hexDigitVal_lt_16 {c : Char} {v : Nat}
    (h : hexDigitVal c = some v) : v < 16 := by
  unfold hexDigitVal at h
  split_ifs at h <;> simp_all <;> omega

theorem hexDigitVal_ne_hash {c : Char} {v : Nat}
    (h : hexDigitVal c = some v) : (c == '#') = false := by
  by_cases hc : c = '#'
  · subst hc
    have hnone : hexDigitVal '#' = none := by decide
    rw [hnone] at h
    exact Option.noConfusion h
  · simp [hc]

theorem pyIntHex_two {c d : Char} {x y : Nat} (hc : hexDigitVal c = some x)
    (hd : hexDigitVal d = some y) : pyIntHex [c, d] = some (16 * x + y) := by
  simp [pyIntHex, pyIntHexAux, hc, hd]

/-- Claim C10: on an input of `#` followed by six hexadecimal digits,
`hex_to_rgba` returns the RGBA value whose red, green and blue components
are the corresponding two-digit hex bytes divided by 255, each lying in
[0, 1], with alpha exactly 1. -/
theorem hex_to_rgba_hash_six_digits (c1 c2 c3 c4 c5 c6 : Char)
    (v1 v2 v3 v4 v5 v6 : Nat)
    (h1 : hexDigitVal c1 = some v1) (h2 : hexDigitVal c2 = some v2)
    (h3 : hexDigitVal c3 = some v3) (h4 : hexDigitVal c4 = some v4)
    (h5 : hexDigitVal c5 = some v5) (h6 : hexDigitVal c6 = some v6) :
    hex_to_rgba (String.mk ['#', c1, c2, c3, c4, c5, c6]) =
      some { r := ((16 * v1 + v2 : ℕ) : ℚ) / 255,
             g := ((16 * v3 + v4 : ℕ) : ℚ) / 255,
             b := ((16 * v5 + v6 : ℕ) : ℚ) / 255,
             a := 1 } ∧
    (0 ≤ ((16 * v1 + v2 : ℕ) : ℚ) / 255 ∧ ((16 * v1 + v2 : ℕ) : ℚ) / 255 ≤ 1) ∧
    (0 ≤ ((16 * v3 + v4 : ℕ) : ℚ) / 255 ∧ ((16 * v3 + v4 : ℕ) : ℚ) / 255 ≤ 1) ∧
    (0 ≤ ((16 * v5 + v6 : ℕ) : ℚ) / 255 ∧ ((16 * v5 + v6 : ℕ) : ℚ) / 255 ≤ 1) := by
  have hdrop : (String.mk ['#', c1, c2, c3, c4, c5, c6]).data.dropWhile
      (fun c => c == '#') = [c1, c2, c3, c4, c5, c6] := by
    simp [List.dropWhile_cons, hexDigitVal_ne_hash h1]
  have bound : ∀ {c d : Char} {x y : Nat}, hexDigitVal c = some x →
      hexDigitVal d = some y → ((16 * x + y : ℕ) : ℚ) / 255 ≤ 1 := by
    intro c d x y hc hd
    have bx := hexDigitVal_lt_16 hc
    have byy := hexDigitVal_lt_16 hd
    rw [div_le_one (by norm_num : (0 : ℚ) < 255)]
    exact_mod_cast Nat.le_of_lt_succ (by omega)
  refine ⟨?_, ⟨by positivity, bound h1 h2⟩, ⟨by positivity, bound h3 h4⟩,
    ⟨by positivity, bound h5 h6⟩⟩
  simp only [hex_to_rgba]
  rw [hdrop]
  rw [show List.take 2 [c1, c2, c3, c4, c5, c6] = [c1, c2] from rfl,
      show List.take 2 (List.drop 2 [c1, c2, c3, c4, c5, c6]) = [c3, c4] from rfl,
      show List.take 2 (List.drop 4 [c1, c2, c3, c4, c5, c6]) = [c5, c6] from rfl]
  rw [pyIntHex_two h1 h2, pyIntHex_two h3 h4, pyIntHex_two h5 h6]

/-- Witness for C10 at the input `#ff00a5`. -/
theorem hex_to_rgba_hash_six_digits_witness :
    (hexDigitVal 'f' = some 15 ∧ hexDigitVal '0' = some 0 ∧
     hexDigitVal 'a' = some 10 ∧ hexDigitVal '5' = some 5) ∧
    (hex_to_rgba (String.mk ['#', 'f', 'f', '0', '0', 'a', '5']) =
       some { r := ((16 * 15 + 15 : ℕ) : ℚ) / 255,
              g := ((16 * 0 + 0 : ℕ) : ℚ) / 255,
              b := ((16 * 10 + 5 : ℕ) : ℚ) / 255,
              a := 1 } ∧
     (0 ≤ ((16 * 15 + 15 : ℕ) : ℚ) / 255 ∧
      ((16 * 15 + 15 : ℕ) : ℚ) / 255 ≤ 1) ∧
     (0 ≤ ((16 * 0 + 0 : ℕ) : ℚ) / 255 ∧
      ((16 * 0 + 0 : ℕ) : ℚ) / 255 ≤ 1) ∧
     (0 ≤ ((16 * 10 + 5 : ℕ) : ℚ) / 255 ∧
      ((16 * 10 + 5 : ℕ) : ℚ) / 255 ≤ 1)) :=
  ⟨⟨by decide, by decide, by decide, by decide⟩,
   hex_to_rgba_hash_six_digits 'f' 'f' '0' '0' 'a' '5' 15 15 0 0 10 5
     (by decide) (by decide) (by decide) (by decide) (by decide) (by decide)⟩

end PowerMenu
